import Mathlib

/-!
# Verification of the bunny-rest-proxy lifecycle, publisher-building and
# server-bootstrap code

Shallow embedding of `src/lifecycle.ts`, `src/server.ts` and
`src/publisher/build-publisher.ts`.  Stateful code is embedded as explicit
state passing together with a trace of observable events (log calls, AMQP
operations, subscriber stops, sleeps), so that temporal claims about the
shutdown coordinator become statements about the produced trace.
-/

namespace BunnyRestProxy

/-- Log levels used by the fastify logger calls in the source. -/
inductive LogLevel where
  | info
  | warn
  | fatal
  deriving DecidableEq, Repr

/-- Observable events emitted by the lifecycle code.  `setPendingShutdown`
records the assignment `app.pendingShutdown = true`; `stopSubscriber hard`
records a call `s.stop(hard)` on one subscriber; `pollSubscribers v` records
one read of `subscriberDeliveriesInFlight` returning `v`;
`pollPublishers v` would record a read of `totalMessagesInFlight` (the
shutdown coordinator in the source never emits it); `closeConnection`
records `app.amqp.connection.close()`; `appClose` records `app.close()`;
`sleep ms` records `sleep(ms)`. -/
inductive Ev where
  | setPendingShutdown
  | setErrorShutdown
  | stopSubscriber (idx : Nat) (hard : Bool)
  | pollSubscribers (v : Nat)
  | pollPublishers (v : Nat)
  | closeConnection
  | appClose
  | sleep (ms : Nat)
  | log (lvl : LogLevel)
  deriving DecidableEq, Repr

/-- The two channel objects held by the `fastify-amqp-async` decoration
(`app.amqp.channel` and `app.amqp.confirmChannel`); a `ChannelRef` is the
identity of one of them. -/
inductive ChannelRef where
  | regular
  | confirm
  deriving DecidableEq, Repr

/-- The two message-parser classes from `src/message-parser/`:
`BinaryMessageParser` (no constructor arguments) and `JSONMessageParser`
(constructed with the publisher's optional schema). -/
inductive MessageParser where
  | binaryMessageParser
  | jsonMessageParser (schema : Option String)
  deriving DecidableEq, Repr

/-- The `PublisherContentTypes` enum from `config/yaml-config.types.ts`. -/
inductive PublisherContentTypes where
  | BINARY
  | JSON
  deriving DecidableEq, Repr

/-- `PublisherConfig` from `config/yaml-config.types.ts`, as read by
`buildPublisher`. -/
structure PublisherConfig where
  queueName : String
  contentType : PublisherContentTypes
  schema : Option String
  confirm : Bool
  identities : List String
  deriving DecidableEq, Repr

/-- A `Publisher` object: the constructor arguments of
`new Publisher(queueName, channel, messageParser, identities)` plus the
`messagesInFlight` counter that `totalMessagesInFlight` reads. -/
structure Publisher where
  queueName : String
  channel : ChannelRef
  messageParser : MessageParser
  identities : List String
  messagesInFlight : Nat
  deriving DecidableEq, Repr

/-- The channel pane exposed as `app.amqp`. -/
structure AmqpPane where
  channel : ChannelRef
  confirmChannel : ChannelRef
  deriving DecidableEq, Repr

/-- Runtime state of one subscriber, as far as the lifecycle module reads it
(`subscriber.inFlightPushRequests`). -/
structure Subscriber where
  inFlightPushRequests : Nat
  deriving DecidableEq, Repr

/-- The slice of the fastify app instance that the lifecycle code touches:
the two process-wide flags, the registered publishers and subscribers. -/
structure AppState where
  pendingShutdown : Bool
  errorShutdown : Bool
  publishers : List Publisher
  subscribers : List Subscriber
  deriving DecidableEq, Repr

/-- `totalMessagesInFlight` from `lifecycle.ts`: sums
`publisher.messagesInFlight` over all publishers with a running counter. -/
def totalMessagesInFlight (publishers : List Publisher) : Nat :=
  publishers.foldl (fun acc p => acc + p.messagesInFlight) 0

/-- `subscriberDeliveriesInFlight` from `lifecycle.ts`: a `reduce` summing
`inFlightPushRequests` over all subscribers. -/
def subscriberDeliveriesInFlight (subscribers : List Subscriber) : Nat :=
  subscribers.foldl (fun prev current => prev + current.inFlightPushRequests) 0

/-- One environment input to the polling loop: `reads i` is the state of
`app.subscribers` (their in-flight counters) at the moment of the `i`-th
loop iteration (0-indexed).  Successive states may differ because in-flight
pushes complete concurrently during the 1 s sleeps; the list itself is the
same registered-subscriber array throughout. -/
abbrev Readings := Nat → List Subscriber

/-- The `while (retries < 5)` loop of `gracefullyHandleSubscriberShutdown`.
`fuel` is the number of loop iterations still allowed (`5 - retries`), `i`
is the index of the next read.  Each iteration reads the subscriber
in-flight sum; on zero it logs, closes the AMQP connection and returns;
otherwise it logs a warning and sleeps 1000 ms.  When the fuel runs out the
loop exits and the code after it logs a warning and closes the connection
anyway. -/
def pollLoop (reads : Readings) : Nat → Nat → List Ev
  | 0, _ => [.log .warn, .closeConnection]
  | fuel + 1, i =>
      let v := subscriberDeliveriesInFlight (reads i)
      if v = 0 then
        [.pollSubscribers v, .log .info, .closeConnection]
      else
        .pollSubscribers v :: .log .warn :: .sleep 1000 :: pollLoop reads fuel (i + 1)

/-- `gracefullyHandleSubscriberShutdown` from `lifecycle.ts`, as a function
from the app state (plus the environment's readings) to the new app state
and the trace of events it performs, in order.  It first assigns
`pendingShutdown = true`; if `errorShutdown` is not set it stops every
subscriber with `stop(false)`, runs the polling loop (which ends in
`connection.close()` on every path); otherwise it stops every subscriber
with `stop(true)` and does nothing else. -/
def gracefullyHandleSubscriberShutdown (s : AppState) (reads : Readings) :
    AppState × List Ev :=
  let s1 := { s with pendingShutdown := true }
  if !s1.errorShutdown then
    (s1,
      .setPendingShutdown ::
        .log .info ::
          ((List.range s1.subscribers.length).map
              (fun i => Ev.stopSubscriber i false) ++
            (.log .info :: pollLoop reads 5 0)))
  else
    (s1,
      .setPendingShutdown ::
        (List.range s1.subscribers.length).map (fun i => Ev.stopSubscriber i true))

/-- `app.close()` as wired in `server.ts`: the `onClose` hook runs
`gracefullyHandleSubscriberShutdown(app)` (the metrics-server shutdown,
which touches no AMQP state, is elided).  Returns the state after the hook
and the trace, prefixed with the `appClose` marker. -/
def appCloseRun (s : AppState) (reads : Readings) : AppState × List Ev :=
  let (s', tr) := gracefullyHandleSubscriberShutdown s reads
  (s', .appClose :: tr)

/-- `handleConnectionClose` from `lifecycle.ts`.  If `pendingShutdown` is
set it only logs; otherwise, if `errorShutdown` is not yet set, it sets
`errorShutdown`, logs fatal and calls `app.close()` (whose `onClose` hook
trace is inlined); otherwise it does nothing. -/
def handleConnectionClose (s : AppState) (reads : Readings) :
    AppState × List Ev :=
  if s.pendingShutdown then
    (s, [.log .info])
  else if !s.errorShutdown then
    let s1 := { s with errorShutdown := true }
    let (s2, tr) := appCloseRun s1 reads
    (s2, .setErrorShutdown :: .log .fatal :: tr)
  else
    (s, [])

/-- `handleChannelClose` from `lifecycle.ts`.  Same shape as
`handleConnectionClose`, except that on the unexpected path it also calls
`app.amqp.connection.close()` before `app.close()`. -/
def handleChannelClose (s : AppState) (_isConfirmChannel : Bool)
    (reads : Readings) : AppState × List Ev :=
  if s.pendingShutdown then
    (s, [.log .info])
  else if !s.errorShutdown then
    let s1 := { s with errorShutdown := true }
    let (s2, tr) := appCloseRun s1 reads
    (s2, .setErrorShutdown :: .log .fatal :: .closeConnection :: tr)
  else
    (s, [])

/-- The `app.gracefulShutdown` handler registered in `server.ts`
(lines 122-128): on a shutdown signal it logs and sets
`pendingShutdown = true`, then lets the plugin proceed to `app.close()`. -/
def gracefulShutdownHook (s : AppState) : AppState × List Ev :=
  ({ s with pendingShutdown := true }, [.log .info, .setPendingShutdown])

/-- The initial flag values installed by `buildApp` in `server.ts`:
`app.decorate('pendingShutdown', false)` and
`app.decorate('errorShutdown', false)`. -/
def initialApp (publishers : List Publisher) (subscribers : List Subscriber) :
    AppState :=
  { pendingShutdown := false
    errorShutdown := false
    publishers := publishers
    subscribers := subscribers }

/-- `buildPublisher` from `src/publisher/build-publisher.ts`:
chooses the message parser by `config.contentType` (BINARY gets a
`BinaryMessageParser`, anything else a `JSONMessageParser(config.schema)`),
chooses the channel by `config.confirm` (the confirm channel when true,
the regular channel otherwise), and constructs the `Publisher`.  The
`messagesInFlight` counter starts at 0 (modelled from the spec:
`src/publisher/publisher.ts` is not under `src/`; §3 specifies the counter
increments from accepted publish attempts, so a fresh publisher has 0). -/
def buildPublisher (config : PublisherConfig) (amqp : AmqpPane) : Publisher :=
  let messageParser : MessageParser :=
    if config.contentType = PublisherContentTypes.BINARY then
      .binaryMessageParser
    else
      .jsonMessageParser config.schema
  let channel : ChannelRef :=
    if config.confirm then amqp.confirmChannel else amqp.channel
  { queueName := config.queueName
    channel := channel
    messageParser := messageParser
    identities := config.identities
    messagesInFlight := 0 }

/-- The error kinds of §7 that the publish route can produce. -/
inductive PublishError where
  | forbidden
  | unsupportedContentType
  | invalidPayload
  | brokerRejected
  deriving DecidableEq, Repr

/-- The HTTP status each error kind maps to (spec §7). -/
def statusOfError : PublishError → Nat
  | .forbidden => 403
  | .unsupportedContentType => 415
  | .invalidPayload => 400
  | .brokerRejected => 502

/-- The success body of a publish: `{contentLengthBytes, confirmed}`. -/
structure PublishResult where
  contentLengthBytes : Nat
  confirmed : Bool
  deriving DecidableEq, Repr

/-- Modelled from the spec: `Publisher.sendMessage` for a confirm publisher
(`src/publisher/publisher.ts` is not under `src/`).  §4.3: the body is first
parsed through the message parser (failures propagate); then the message is
published on the confirm channel and the broker confirm awaited; a positive
confirm yields `{confirmed: true}`, a negative confirm or channel error
fails with BROKER_REJECTED.  `parseOutcome` is the parser's result (the
content length on success) and `brokerConfirmed` whether the broker
positively confirmed. -/
def sendMessageConfirm (parseOutcome : Except PublishError Nat)
    (brokerConfirmed : Bool) : Except PublishError PublishResult :=
  match parseOutcome with
  | .error e => .error e
  | .ok len =>
      if brokerConfirmed then .ok ⟨len, true⟩ else .error .brokerRejected

/-- A fastify reply object, reduced to the status code the handler sets. -/
structure Reply where
  statusCode : Nat
  deriving DecidableEq, Repr

/-- The publish route handler registered by `registerPublishers`
(`build-publisher.ts` lines 37-42), in the handler's own evaluation order:
`identityGuard.verifyRequest(req)` (throws on failure), then the
`sendMessage` promise is created, then `res.status(201)` runs (before the
promise settles), then the handler returns the promise, which fastify
awaits; a rejection discards the reply and goes to the error mapping. -/
def publishRouteHandler (guard : Except PublishError Unit)
    (send : Except PublishError PublishResult) (res : Reply) :
    Except PublishError (Reply × PublishResult) :=
  match guard with
  | .error e => .error e
  | .ok _ =>
      let result := send
      let res1 := { res with statusCode := 201 }
      match result with
      | .error e => .error e
      | .ok r => .ok (res1, r)

/-- The status code the client observes for one publish request: the
handler's reply status on success, the §7 mapping of the raised error
otherwise (fastify's default reply status before the handler touches it is
200). -/
def publishRouteStatus (guard : Except PublishError Unit)
    (send : Except PublishError PublishResult) : Nat :=
  match publishRouteHandler guard send ⟨200⟩ with
  | .ok (res, _) => res.statusCode
  | .error e => statusOfError e

/-- The routes the proxy serves, as the shutdown gate distinguishes them. -/
inductive Route where
  | root
  | metrics
  | publish (queue : String)
  | consume (queue : String)
  deriving DecidableEq, Repr

/-- HTTP-server state as the shutdown gate sees it: the `pendingShutdown`
flag and the identifiers of requests already being processed. -/
structure HttpServerState where
  pendingShutdown : Bool
  inFlight : List Nat
  deriving DecidableEq, Repr

/-- Modelled from the spec: the 503 gate applied to each newly arriving
request during `pendingShutdown` (the gate lives in route-handler /
framework code that is not under `src/`; §4.7: during `pendingShutdown`,
all routes except `GET /` and any metrics route reply 503 SERVICE
UNAVAILABLE, and the doc comment on `pendingShutdown` in `server.ts` says
incoming requests receive 503 while existing ones continue processing).
Returns the possibly-changed server state and `some 503` when the gate
rejects the request, or `none` when the request proceeds to its route
handler normally. -/
def gateIncomingRequest (srv : HttpServerState) (r : Route) :
    HttpServerState × Option Nat :=
  match r with
  | .root => (srv, none)
  | .metrics => (srv, none)
  | .publish _ => if srv.pendingShutdown then (srv, some 503) else (srv, none)
  | .consume _ => if srv.pendingShutdown then (srv, some 503) else (srv, none)

/-- What a body parser produces for the route handler. -/
inductive ParsedBody where
  | buffer (bytes : List Nat)
  | jsonValue (bytes : List Nat)
  | text (bytes : List Nat)
  deriving DecidableEq, Repr

/-- A body parser: bytes in, parsed body or an HTTP error status out. -/
def BodyParser : Type := List Nat → Except Nat ParsedBody

/-- fastify's content-type parser table: parsers keyed by exact media type,
plus an optional catch-all installed under the key `'*'`. -/
structure ContentTypeParserTable where
  specific : List (String × BodyParser)
  catchAll : Option BodyParser

/-- fastify's built-in table: a JSON parser on `application/json` and a
plain-text parser on `text/plain` (their internals are the framework's,
taken as parameters). -/
def fastifyDefaultParsers (jsonParse textParse : BodyParser) :
    ContentTypeParserTable :=
  { specific :=
      [("application/json", jsonParse),
       ("text/plain", textParse)]
    catchAll := none }

/-- `app.removeAllContentTypeParsers()` from `server.ts` line 72. -/
def removeAllContentTypeParsers (_t : ContentTypeParserTable) :
    ContentTypeParserTable :=
  { specific := [], catchAll := none }

/-- `app.addContentTypeParser('*', {parseAs: 'buffer'}, ...)` from
`server.ts` lines 74-76: installs a catch-all parser; with
`parseAs: 'buffer'` the framework hands the parser the raw received bytes
and the parser calls `done(null, body)`, passing them through unchanged. -/
def addCatchAllBufferParser (t : ContentTypeParserTable) :
    ContentTypeParserTable :=
  { t with catchAll := some (fun body => .ok (.buffer body)) }

/-- The parser table after `buildApp` ran lines 72-76 of `server.ts`. -/
def appParserTable (jsonParse textParse : BodyParser) :
    ContentTypeParserTable :=
  addCatchAllBufferParser
    (removeAllContentTypeParsers (fastifyDefaultParsers jsonParse textParse))

/-- fastify's body-parsing step for one request: look the `Content-Type`
header up among the specific parsers (an absent header is looked up as the
empty string), fall back to the catch-all, and answer 415 at the HTTP layer
when neither exists. -/
def parseRequestBody (t : ContentTypeParserTable) (contentType : Option String)
    (body : List Nat) : Except Nat ParsedBody :=
  let key := contentType.getD ""
  match t.specific.lookup key with
  | some p => p body
  | none =>
      match t.catchAll with
      | some p => p body
      | none => .error 415

/-! ## Trace observations -/

/-- Is this event a read of `subscriberDeliveriesInFlight`? -/
def isPoll : Ev → Bool
  | .pollSubscribers _ => true
  | _ => false

/-- Number of subscriber in-flight reads in a trace. -/
def countPolls (tr : List Ev) : Nat := tr.countP isPoll

/-- Number of `connection.close()` calls in a trace. -/
def countClose (tr : List Ev) : Nat := tr.count .closeConnection

/-- The polling sub-trace of `k` consecutive non-zero reads starting at
read index `i`: each read is logged as a warning and followed by a 1 s
sleep. -/
def pollSegment (reads : Readings) : Nat → Nat → List Ev
  | _, 0 => []
  | i, k + 1 =>
      .pollSubscribers (subscriberDeliveriesInFlight (reads i)) :: .log .warn :: .sleep 1000 ::
        pollSegment reads (i + 1) k

/-- The events performed by the soft-shutdown path before any polling:
the `pendingShutdown` assignment, the info log, one `stop(false)` per
subscriber, and the pre-poll info log. -/
def softStopHeader (n : Nat) : List Ev :=
  Ev.setPendingShutdown :: Ev.log .info ::
    ((List.range n).map (fun i => Ev.stopSubscriber i false) ++ [Ev.log .info])

/-! ## Characterization of the polling loop -/

lemma pollLoop_firstZero (reads : Readings) :
    ∀ k i fuel, k < fuel → subscriberDeliveriesInFlight (reads (i + k)) = 0 → (∀ j, j < k → subscriberDeliveriesInFlight (reads (i + j)) ≠ 0) →
      pollLoop reads fuel i =
        pollSegment reads i k ++
          [.pollSubscribers 0, .log .info, .closeConnection] := by
  intro k
  induction k with
  | zero =>
      intro i fuel hfuel h0 _
      match fuel, hfuel with
      | fuel + 1, _ =>
        simp only [Nat.add_zero] at h0
        simp [pollLoop, h0, pollSegment]
  | succ k ih =>
      intro i fuel hfuel h0 hnz
      match fuel, hfuel with
      | fuel + 1, hfuel =>
        have hi : subscriberDeliveriesInFlight (reads i) ≠ 0 := by
          have := hnz 0 (Nat.succ_pos k)
          simpa using this
        have hrec := ih (i + 1) fuel (Nat.lt_of_succ_lt_succ hfuel)
          (by
            have he : i + 1 + k = i + (k + 1) := by omega
            rw [he]; exact h0)
          (fun j hj => by
            have he : i + 1 + j = i + (j + 1) := by omega
            rw [he]; exact hnz (j + 1) (Nat.succ_lt_succ hj))
        simp [pollLoop, hi, pollSegment, hrec]

lemma pollLoop_noZero (reads : Readings) :
    ∀ fuel i, (∀ j, j < fuel → subscriberDeliveriesInFlight (reads (i + j)) ≠ 0) →
      pollLoop reads fuel i =
        pollSegment reads i fuel ++ [.log .warn, .closeConnection] := by
  intro fuel
  induction fuel with
  | zero => intro i _; simp [pollLoop, pollSegment]
  | succ fuel ih =>
      intro i hnz
      have hi : subscriberDeliveriesInFlight (reads i) ≠ 0 := by
        have := hnz 0 (Nat.succ_pos fuel)
        simpa using this
      have hrec := ih (i + 1) (fun j hj => by
        have he : i + 1 + j = i + (j + 1) := by omega
        rw [he]; exact hnz (j + 1) (Nat.succ_lt_succ hj))
      simp [pollLoop, hi, pollSegment, hrec]

lemma countPolls_pollSegment (reads : Readings) :
    ∀ k i, countPolls (pollSegment reads i k) = k := by
  intro k
  induction k with
  | zero => intro i; simp [pollSegment, countPolls]
  | succ k ih =>
      intro i
      simp [pollSegment, countPolls, List.countP_cons, isPoll] at *
      simpa [countPolls] using ih (i + 1)

lemma close_not_mem_pollSegment (reads : Readings) :
    ∀ k i, Ev.closeConnection ∉ pollSegment reads i k := by
  intro k
  induction k with
  | zero => intro i; simp [pollSegment]
  | succ k ih =>
      intro i
      simp [pollSegment]
      exact ih (i + 1)

lemma countClose_softStopHeader (n : Nat) :
    countClose (softStopHeader n) = 0 := by
  simp [softStopHeader, countClose, List.count_append, List.count_cons,
    List.count_eq_zero, List.mem_map]

lemma countPolls_softStopHeader (n : Nat) :
    countPolls (softStopHeader n) = 0 := by
  simp [softStopHeader, countPolls, List.countP_append, List.countP_cons,
    isPoll, List.countP_eq_zero, List.mem_map]

lemma close_not_mem_softStopHeader (n : Nat) :
    Ev.closeConnection ∉ softStopHeader n := by
  have := countClose_softStopHeader n
  simp [countClose] at this
  exact List.count_eq_zero.mp this

lemma countPolls_append (A B : List Ev) :
    countPolls (A ++ B) = countPolls A + countPolls B := by
  simp [countPolls, List.countP_append]

lemma countClose_append (A B : List Ev) :
    countClose (A ++ B) = countClose A + countClose B := by
  simp [countClose, List.count_append]

lemma countClose_pollSegment (reads : Readings) (k i : Nat) :
    countClose (pollSegment reads i k) = 0 :=
  List.count_eq_zero.mpr (close_not_mem_pollSegment reads k i)

/-- On the soft path, `gracefullyHandleSubscriberShutdown` sets the flag
and produces the stop-all header followed by the polling loop's trace. -/
lemma graceful_trace (s : AppState) (reads : Readings)
    (hes : s.errorShutdown = false) :
    gracefullyHandleSubscriberShutdown s reads =
      ({ s with pendingShutdown := true },
       softStopHeader s.subscribers.length ++ pollLoop reads 5 0) := by
  simp [gracefullyHandleSubscriberShutdown, hes, softStopHeader]

/-- Splitting a list at a unique occurrence of `a` is unambiguous. -/
lemma eq_split_of_not_mem {α : Type} [DecidableEq α] {a : α} :
    ∀ {A : List α} {B pre post : List α},
      A ++ a :: B = pre ++ a :: post → a ∉ A → a ∉ pre →
      A = pre ∧ B = post := by
  intro A
  induction A with
  | nil =>
      intro B pre post h _ hpre
      cases pre with
      | nil => simpa using h
      | cons x pre' =>
          simp at h
          exact absurd (by simp [h.1]) hpre
  | cons x A' ih =>
      intro B pre post h hA hpre
      cases pre with
      | nil =>
          simp at h
          exact absurd (by simp [h.1]) hA
      | cons y pre' =>
          simp at h
          obtain ⟨hxy, hrest⟩ := h
          have := ih hrest (fun hm => hA (List.mem_cons_of_mem _ hm))
            (fun hm => hpre (List.mem_cons_of_mem _ hm))
          exact ⟨by simp [hxy, this.1], this.2⟩

lemma close_mem_pollLoop (reads : Readings) :
    ∀ fuel i, Ev.closeConnection ∈ pollLoop reads fuel i := by
  intro fuel
  induction fuel with
  | zero => intro i; simp [pollLoop]
  | succ fuel ih =>
      intro i
      by_cases hv : subscriberDeliveriesInFlight (reads i) = 0 <;> simp [pollLoop, hv]
      exact ih (i + 1)

lemma pollPub_not_mem_pollLoop (reads : Readings) :
    ∀ fuel i v, Ev.pollPublishers v ∉ pollLoop reads fuel i := by
  intro fuel
  induction fuel with
  | zero => intro i v; simp [pollLoop]
  | succ fuel ih =>
      intro i v
      by_cases hv : subscriberDeliveriesInFlight (reads i) = 0 <;> simp [pollLoop, hv]
      exact ih (i + 1) v

lemma pollPub_not_mem_softStopHeader (n : Nat) (v : Nat) :
    Ev.pollPublishers v ∉ softStopHeader n := by
  simp [softStopHeader, List.mem_append, List.mem_map]

/-! ## Claims -/

/-- C1: during graceful shutdown with `errorShutdown` false, the
coordinator first stops every subscriber with `stop(false)`, then polls the
subscriber in-flight sum with a 1 s sleep after each non-zero read; it
closes the AMQP connection as soon as a read returns zero, makes at most 5
polling attempts, never closes the connection before a zero read or before
5 attempts, and closes anyway once the 5-attempt budget expires.  Exactly
one `connection.close()` happens on this path. -/
theorem graceful_shutdown_poll_budget (s : AppState) (reads : Readings)
    (hes : s.errorShutdown = false) :
    (gracefullyHandleSubscriberShutdown s reads).2 =
      softStopHeader s.subscribers.length ++ pollLoop reads 5 0 ∧
    (∀ i, i < s.subscribers.length →
      Ev.stopSubscriber i false ∈ softStopHeader s.subscribers.length) ∧
    countClose ((gracefullyHandleSubscriberShutdown s reads).2) = 1 ∧
    ((∃ k, k < 5 ∧ subscriberDeliveriesInFlight (reads k) = 0 ∧ (∀ j, j < k → subscriberDeliveriesInFlight (reads j) ≠ 0) ∧
        pollLoop reads 5 0 =
          pollSegment reads 0 k ++
            [Ev.pollSubscribers 0, Ev.log .info, Ev.closeConnection] ∧
        countPolls (pollLoop reads 5 0) = k + 1) ∨
      ((∀ j, j < 5 → subscriberDeliveriesInFlight (reads j) ≠ 0) ∧
        pollLoop reads 5 0 =
          pollSegment reads 0 5 ++ [Ev.log .warn, Ev.closeConnection] ∧
        countPolls (pollLoop reads 5 0) = 5)) ∧
    (∀ pre post,
      (gracefullyHandleSubscriberShutdown s reads).2 =
        pre ++ Ev.closeConnection :: post →
      Ev.pollSubscribers 0 ∈ pre ∨ countPolls pre = 5) := by
  have htr : (gracefullyHandleSubscriberShutdown s reads).2 =
      softStopHeader s.subscribers.length ++ pollLoop reads 5 0 := by
    rw [graceful_trace s reads hes]
  have hdisj : (∃ k, k < 5 ∧ subscriberDeliveriesInFlight (reads k) = 0 ∧ (∀ j, j < k → subscriberDeliveriesInFlight (reads j) ≠ 0) ∧
      pollLoop reads 5 0 =
        pollSegment reads 0 k ++
          [Ev.pollSubscribers 0, Ev.log .info, Ev.closeConnection] ∧
      countPolls (pollLoop reads 5 0) = k + 1) ∨
      ((∀ j, j < 5 → subscriberDeliveriesInFlight (reads j) ≠ 0) ∧
      pollLoop reads 5 0 =
        pollSegment reads 0 5 ++ [Ev.log .warn, Ev.closeConnection] ∧
      countPolls (pollLoop reads 5 0) = 5) := by
    by_cases hz : ∃ j, j < 5 ∧ subscriberDeliveriesInFlight (reads j) = 0
    · left
      obtain ⟨j0, hj0, hz0⟩ := hz
      have hex : ∃ j, subscriberDeliveriesInFlight (reads j) = 0 := ⟨j0, hz0⟩
      have hk5 : Nat.find hex < 5 :=
        Nat.lt_of_le_of_lt (Nat.find_min' hex hz0) hj0
      have hpl := pollLoop_firstZero reads (Nat.find hex) 0 5 hk5
        (by simpa using Nat.find_spec hex)
        (fun j hj => by simpa using Nat.find_min hex hj)
      refine ⟨Nat.find hex, hk5, Nat.find_spec hex,
        fun m hm => Nat.find_min hex hm, hpl, ?_⟩
      have h1 : countPolls
          [Ev.pollSubscribers 0, Ev.log LogLevel.info, Ev.closeConnection]
          = 1 := rfl
      rw [hpl, countPolls_append, countPolls_pollSegment, h1]
    · right
      push_neg at hz
      have hnz : ∀ j, j < 5 → subscriberDeliveriesInFlight (reads j) ≠ 0 := hz
      have hpl := pollLoop_noZero reads 5 0 (fun j hj => by
        simpa using hnz j hj)
      refine ⟨hnz, hpl, ?_⟩
      have h2 : countPolls [Ev.log LogLevel.warn, Ev.closeConnection]
          = 0 := rfl
      rw [hpl, countPolls_append, countPolls_pollSegment, h2]
  have hclose : countClose (pollLoop reads 5 0) = 1 := by
    rcases hdisj with ⟨k, _, _, _, hpl, _⟩ | ⟨_, hpl, _⟩ <;>
      rw [hpl, countClose_append, countClose_pollSegment] <;> rfl
  have hctr : countClose ((gracefullyHandleSubscriberShutdown s reads).2)
      = 1 := by
    rw [htr, countClose_append, countClose_softStopHeader, hclose]
  refine ⟨htr, ?_, hctr, hdisj, ?_⟩
  · intro i hi
    have hmem : Ev.stopSubscriber i false ∈
        (List.range s.subscribers.length).map
          (fun j => Ev.stopSubscriber j false) :=
      List.mem_map.mpr ⟨i, List.mem_range.mpr hi, rfl⟩
    simp only [softStopHeader, List.mem_cons, List.mem_append]
    tauto
  · intro pre post hsplit
    have hq : Ev.closeConnection ∉ pre := by
      have hc := hctr
      rw [hsplit, countClose_append] at hc
      have h1 : countClose (Ev.closeConnection :: post) =
          countClose post + 1 := by
        simp [countClose, List.count_cons]
      have h0 : countClose pre = 0 := by omega
      exact List.count_eq_zero.mp h0
    rcases hdisj with ⟨k, hk5, hk0, hmin, hpl, _⟩ | ⟨hnz, hpl, _⟩
    · have htr2 : (softStopHeader s.subscribers.length ++
          (pollSegment reads 0 k ++ [Ev.pollSubscribers 0, Ev.log .info]))
          ++ Ev.closeConnection :: ([] : List Ev) =
          pre ++ Ev.closeConnection :: post := by
        rw [← hsplit, htr, hpl]
        simp
      have hpre0 : Ev.closeConnection ∉
          softStopHeader s.subscribers.length ++
            (pollSegment reads 0 k ++
              [Ev.pollSubscribers 0, Ev.log .info]) := by
        simp [List.mem_append, close_not_mem_softStopHeader]
        exact close_not_mem_pollSegment reads k 0
      obtain ⟨hA, _⟩ := eq_split_of_not_mem htr2 hpre0 hq
      left
      rw [← hA]
      simp
    · have htr2 : (softStopHeader s.subscribers.length ++
          (pollSegment reads 0 5 ++ [Ev.log .warn]))
          ++ Ev.closeConnection :: ([] : List Ev) =
          pre ++ Ev.closeConnection :: post := by
        rw [← hsplit, htr, hpl]
        simp
      have hpre0 : Ev.closeConnection ∉
          softStopHeader s.subscribers.length ++
            (pollSegment reads 0 5 ++ [Ev.log .warn]) := by
        simp [List.mem_append, close_not_mem_softStopHeader]
        exact close_not_mem_pollSegment reads 5 0
      obtain ⟨hA, _⟩ := eq_split_of_not_mem htr2 hpre0 hq
      right
      have h3 : countPolls [Ev.log LogLevel.warn] = 0 := rfl
      rw [← hA, countPolls_append, countPolls_append,
        countPolls_pollSegment, countPolls_softStopHeader, h3]

/-- Witness for C1 at a concrete app state whose single subscriber reports
zero in-flight pushes on the first poll. -/
theorem graceful_shutdown_poll_budget_witness :
    ({ pendingShutdown := false, errorShutdown := false, publishers := [],
       subscribers := [⟨0⟩] } : AppState).errorShutdown = false ∧
    countClose ((gracefullyHandleSubscriberShutdown
      { pendingShutdown := false, errorShutdown := false, publishers := [],
        subscribers := [⟨0⟩] } (fun _ => [])).2) = 1 :=
  ⟨rfl, (graceful_shutdown_poll_budget
    { pendingShutdown := false, errorShutdown := false, publishers := [],
      subscribers := [⟨0⟩] } (fun _ => []) rfl).2.2.1⟩

/-- C2: on the confirm-publisher publish route, the response status is 201
exactly when the guard passed, the parser accepted the body and the broker
positively confirmed the publish; every other outcome (authz failure,
parse failure, negative confirm or channel error) produces a non-2xx
status — even though the handler sets status 201 before the `sendMessage`
promise settles, a rejection discards that reply. -/
theorem confirm_publish_status_iff_confirmed
    (guard : Except PublishError Unit) (parse : Except PublishError Nat)
    (brokerConfirmed : Bool) :
    (publishRouteStatus guard (sendMessageConfirm parse brokerConfirmed)
        = 201 ↔
      (guard = .ok () ∧ (∃ len, parse = .ok len) ∧
        brokerConfirmed = true)) ∧
    (∀ st, publishRouteStatus guard (sendMessageConfirm parse brokerConfirmed)
        = st → 200 ≤ st → st < 300 → st = 201) ∧
    (brokerConfirmed = false →
      ¬(200 ≤ publishRouteStatus guard
          (sendMessageConfirm parse brokerConfirmed) ∧
        publishRouteStatus guard
          (sendMessageConfirm parse brokerConfirmed) < 300)) := by
  cases guard with
  | error e =>
      cases e <;>
        simp [publishRouteStatus, publishRouteHandler, sendMessageConfirm,
          statusOfError]
  | ok u =>
      cases u
      cases parse with
      | error e =>
          cases e <;>
            simp [publishRouteStatus, publishRouteHandler,
              sendMessageConfirm, statusOfError]
      | ok len =>
          cases brokerConfirmed <;>
            simp [publishRouteStatus, publishRouteHandler,
              sendMessageConfirm, statusOfError]

/-- Witness for C2 at a concrete accepted, broker-confirmed publish of an
11-byte body. -/
theorem confirm_publish_status_iff_confirmed_witness :
    publishRouteStatus (.ok ()) (sendMessageConfirm (.ok 11) true) = 201 :=
  (confirm_publish_status_iff_confirmed (.ok ()) (.ok 11) true).1.mpr
    ⟨rfl, ⟨11, rfl⟩, rfl⟩

/-- C3 counterexample: a shutdown that starts with one publisher holding 3
in-flight messages closes the AMQP connection without a single read of
`totalMessagesInFlight`: the coordinator never observes publisher
in-flight counts. -/
theorem shutdown_ignores_publisher_inflight_cx :
    totalMessagesInFlight
      ([{ queueName := "q", channel := .confirm,
          messageParser := .binaryMessageParser, identities := [],
          messagesInFlight := 3 }] : List Publisher) = 3 ∧
    Ev.closeConnection ∈
      (gracefullyHandleSubscriberShutdown
        { pendingShutdown := false, errorShutdown := false,
          publishers := [{ queueName := "q", channel := .confirm,
                           messageParser := .binaryMessageParser,
                           identities := [], messagesInFlight := 3 }],
          subscribers := [] } (fun _ => [])).2 ∧
    (∀ v, Ev.pollPublishers v ∉
      (gracefullyHandleSubscriberShutdown
        { pendingShutdown := false, errorShutdown := false,
          publishers := [{ queueName := "q", channel := .confirm,
                           messageParser := .binaryMessageParser,
                           identities := [], messagesInFlight := 3 }],
          subscribers := [] } (fun _ => [])).2) := by
  refine ⟨rfl, ?_, ?_⟩
  · simp [gracefullyHandleSubscriberShutdown, pollLoop,
      subscriberDeliveriesInFlight]
  · intro v
    simp [gracefullyHandleSubscriberShutdown, pollLoop,
      subscriberDeliveriesInFlight]

/-- C3 amended: the graceful-shutdown coordinator drains only subscriber
pushes; it closes the AMQP connection without ever reading
`totalMessagesInFlight`, and leaves the publishers (and their in-flight
counters) untouched. -/
theorem shutdown_drains_only_subscribers (s : AppState) (reads : Readings)
    (hes : s.errorShutdown = false) :
    Ev.closeConnection ∈ (gracefullyHandleSubscriberShutdown s reads).2 ∧
    (∀ v, Ev.pollPublishers v ∉
      (gracefullyHandleSubscriberShutdown s reads).2) ∧
    (gracefullyHandleSubscriberShutdown s reads).1.publishers =
      s.publishers := by
  have htr := graceful_trace s reads hes
  rw [htr]
  refine ⟨?_, ?_, rfl⟩
  · simp [List.mem_append]
    exact Or.inr (close_mem_pollLoop reads 5 0)
  · intro v
    simp [List.mem_append]
    exact ⟨pollPub_not_mem_softStopHeader _ v,
      pollPub_not_mem_pollLoop reads 5 0 v⟩

/-- Witness for the amended C3 at a concrete app state. -/
theorem shutdown_drains_only_subscribers_witness :
    ({ pendingShutdown := false, errorShutdown := false,
       publishers := [{ queueName := "q", channel := .confirm,
                        messageParser := .binaryMessageParser,
                        identities := [], messagesInFlight := 3 }],
       subscribers := [] } : AppState).errorShutdown = false ∧
    (gracefullyHandleSubscriberShutdown
      { pendingShutdown := false, errorShutdown := false,
        publishers := [{ queueName := "q", channel := .confirm,
                         messageParser := .binaryMessageParser,
                         identities := [], messagesInFlight := 3 }],
        subscribers := [] } (fun _ => [])).1.publishers =
      [{ queueName := "q", channel := .confirm,
         messageParser := .binaryMessageParser, identities := [],
         messagesInFlight := 3 }] :=
  ⟨rfl, (shutdown_drains_only_subscribers
    { pendingShutdown := false, errorShutdown := false,
      publishers := [{ queueName := "q", channel := .confirm,
                       messageParser := .binaryMessageParser,
                       identities := [], messagesInFlight := 3 }],
      subscribers := [] } (fun _ => []) rfl).2.2⟩

/-- C4: while `pendingShutdown` is set, every newly arriving publish or
consume request is answered 503 at the gate; `GET /` and metrics requests
pass through to their handlers, and the set of requests already being
processed is not touched by the gate for any route. -/
theorem pending_shutdown_gate_503 (srv : HttpServerState)
    (h : srv.pendingShutdown = true) :
    (∀ q, gateIncomingRequest srv (.publish q) = (srv, some 503)) ∧
    (∀ q, gateIncomingRequest srv (.consume q) = (srv, some 503)) ∧
    gateIncomingRequest srv .root = (srv, none) ∧
    gateIncomingRequest srv .metrics = (srv, none) ∧
    (∀ r, (gateIncomingRequest srv r).1.inFlight = srv.inFlight) := by
  refine ⟨fun q => by simp [gateIncomingRequest, h],
    fun q => by simp [gateIncomingRequest, h], rfl, rfl, fun r => ?_⟩
  cases r <;> simp [gateIncomingRequest, h]

/-- Witness for C4 at a concrete server state with one in-flight
request. -/
theorem pending_shutdown_gate_503_witness :
    ({ pendingShutdown := true, inFlight := [7] } :
      HttpServerState).pendingShutdown = true ∧
    gateIncomingRequest { pendingShutdown := true, inFlight := [7] }
        (.publish "q") =
      ({ pendingShutdown := true, inFlight := [7] }, some 503) :=
  ⟨rfl, (pending_shutdown_gate_503
    { pendingShutdown := true, inFlight := [7] } rfl).1 "q"⟩

/-- C5: an AMQP connection or channel close arriving while
`pendingShutdown` is false and `errorShutdown` is not yet set makes the
handler set `errorShutdown`, log fatal, (for a channel close) close the
connection, and initiate server close, whose `onClose` hook gives every
subscriber `stop(true)`; a close arriving while `pendingShutdown` is true
only logs and changes no state. -/
theorem unexpected_close_error_shutdown (s : AppState) (reads : Readings) :
    (s.pendingShutdown = false → s.errorShutdown = false →
      handleConnectionClose s reads =
        ({ s with errorShutdown := true, pendingShutdown := true },
         Ev.setErrorShutdown :: Ev.log .fatal :: Ev.appClose ::
           Ev.setPendingShutdown ::
             (List.range s.subscribers.length).map
               (fun i => Ev.stopSubscriber i true)) ∧
      (∀ b, handleChannelClose s b reads =
        ({ s with errorShutdown := true, pendingShutdown := true },
         Ev.setErrorShutdown :: Ev.log .fatal :: Ev.closeConnection ::
           Ev.appClose :: Ev.setPendingShutdown ::
             (List.range s.subscribers.length).map
               (fun i => Ev.stopSubscriber i true))) ∧
      (∀ i, i < s.subscribers.length →
        Ev.stopSubscriber i true ∈ (handleConnectionClose s reads).2)) ∧
    (s.pendingShutdown = true →
      handleConnectionClose s reads = (s, [Ev.log .info]) ∧
      ∀ b, handleChannelClose s b reads = (s, [Ev.log .info])) := by
  constructor
  · intro hp he
    have hcc : handleConnectionClose s reads =
        ({ s with errorShutdown := true, pendingShutdown := true },
         Ev.setErrorShutdown :: Ev.log .fatal :: Ev.appClose ::
           Ev.setPendingShutdown ::
             (List.range s.subscribers.length).map
               (fun i => Ev.stopSubscriber i true)) := by
      simp [handleConnectionClose, appCloseRun,
        gracefullyHandleSubscriberShutdown, hp, he]
    refine ⟨hcc, fun b => ?_, fun i hi => ?_⟩
    · simp [handleChannelClose, appCloseRun,
        gracefullyHandleSubscriberShutdown, hp, he]
    · rw [hcc]
      have hmem : Ev.stopSubscriber i true ∈
          (List.range s.subscribers.length).map
            (fun j => Ev.stopSubscriber j true) :=
        List.mem_map.mpr ⟨i, List.mem_range.mpr hi, rfl⟩
      simp only [List.mem_cons]
      tauto
  · intro hp
    exact ⟨by simp [handleConnectionClose, hp],
      fun b => by simp [handleChannelClose, hp]⟩

/-- Witness for C5 at a concrete not-yet-shutting-down app state with two
subscribers. -/
theorem unexpected_close_error_shutdown_witness :
    ({ pendingShutdown := false, errorShutdown := false, publishers := [],
       subscribers := [⟨1⟩, ⟨0⟩] } : AppState).pendingShutdown = false ∧
    (handleConnectionClose
      { pendingShutdown := false, errorShutdown := false, publishers := [],
        subscribers := [⟨1⟩, ⟨0⟩] } (fun _ => [])).1.errorShutdown =
      true :=
  ⟨rfl, by
    rw [((unexpected_close_error_shutdown
      { pendingShutdown := false, errorShutdown := false, publishers := [],
        subscribers := [⟨1⟩, ⟨0⟩] } (fun _ => [])).1 rfl rfl).1]⟩

/-- C6: when the coordinator runs with `errorShutdown` already true, every
subscriber receives `stop(true)` and the coordinator performs no in-flight
polling, no sleeping and no AMQP connection close. -/
theorem error_shutdown_hard_stop_no_drain (s : AppState) (reads : Readings)
    (hes : s.errorShutdown = true) :
    gracefullyHandleSubscriberShutdown s reads =
      ({ s with pendingShutdown := true },
       Ev.setPendingShutdown ::
         (List.range s.subscribers.length).map
           (fun i => Ev.stopSubscriber i true)) ∧
    (∀ i, i < s.subscribers.length →
      Ev.stopSubscriber i true ∈
        (gracefullyHandleSubscriberShutdown s reads).2) ∧
    (∀ v, Ev.pollSubscribers v ∉
      (gracefullyHandleSubscriberShutdown s reads).2) ∧
    (∀ ms, Ev.sleep ms ∉ (gracefullyHandleSubscriberShutdown s reads).2) ∧
    Ev.closeConnection ∉ (gracefullyHandleSubscriberShutdown s reads).2 := by
  have htr : gracefullyHandleSubscriberShutdown s reads =
      ({ s with pendingShutdown := true },
       Ev.setPendingShutdown ::
         (List.range s.subscribers.length).map
           (fun i => Ev.stopSubscriber i true)) := by
    simp [gracefullyHandleSubscriberShutdown, hes]
  rw [htr]
  refine ⟨rfl, fun i hi => ?_, fun v => ?_, fun ms => ?_, ?_⟩
  · have hmem : Ev.stopSubscriber i true ∈
        (List.range s.subscribers.length).map
          (fun j => Ev.stopSubscriber j true) :=
      List.mem_map.mpr ⟨i, List.mem_range.mpr hi, rfl⟩
    simp only [List.mem_cons]
    tauto
  · simp [List.mem_map]
  · simp [List.mem_map]
  · simp [List.mem_map]

/-- Witness for C6 at a concrete error-shutdown state with one
subscriber holding an in-flight push. -/
theorem error_shutdown_hard_stop_no_drain_witness :
    ({ pendingShutdown := false, errorShutdown := true, publishers := [],
       subscribers := [⟨4⟩] } : AppState).errorShutdown = true ∧
    Ev.closeConnection ∉
      (gracefullyHandleSubscriberShutdown
        { pendingShutdown := false, errorShutdown := true, publishers := [],
          subscribers := [⟨4⟩] } (fun _ => [⟨1⟩])).2 :=
  ⟨rfl, (error_shutdown_hard_stop_no_drain
    { pendingShutdown := false, errorShutdown := true, publishers := [],
      subscribers := [⟨4⟩] } (fun _ => [⟨1⟩]) rfl).2.2.2.2⟩

/-- C7: both flags start false; every operation of the model only ever
raises them (neither is ever assigned back to false); and once
`errorShutdown` is true, a further connection or channel close event
leaves the state unchanged and performs no second server close. -/
theorem flags_monotone_write_once :
    (∀ pubs subs, (initialApp pubs subs).pendingShutdown = false ∧
      (initialApp pubs subs).errorShutdown = false) ∧
    (∀ (s : AppState) (reads : Readings),
      (s.pendingShutdown = true →
        (gracefullyHandleSubscriberShutdown s reads).1.pendingShutdown
            = true ∧
        (handleConnectionClose s reads).1.pendingShutdown = true ∧
        (∀ b, (handleChannelClose s b reads).1.pendingShutdown = true) ∧
        (gracefulShutdownHook s).1.pendingShutdown = true) ∧
      (s.errorShutdown = true →
        (gracefullyHandleSubscriberShutdown s reads).1.errorShutdown
            = true ∧
        (handleConnectionClose s reads).1.errorShutdown = true ∧
        (∀ b, (handleChannelClose s b reads).1.errorShutdown = true) ∧
        (gracefulShutdownHook s).1.errorShutdown = true)) ∧
    (∀ (s : AppState) (reads : Readings), s.errorShutdown = true →
      (handleConnectionClose s reads).1 = s ∧
      (∀ b, (handleChannelClose s b reads).1 = s) ∧
      Ev.appClose ∉ (handleConnectionClose s reads).2 ∧
      (∀ b, Ev.appClose ∉ (handleChannelClose s b reads).2)) := by
  refine ⟨fun pubs subs => ⟨rfl, rfl⟩, fun s reads => ⟨?_, ?_⟩,
    fun s reads hes => ?_⟩
  · intro hp
    refine ⟨?_, ?_, fun b => ?_, rfl⟩ <;>
      by_cases he : s.errorShutdown <;>
      simp [gracefullyHandleSubscriberShutdown, handleConnectionClose,
        handleChannelClose, appCloseRun, hp, he]
  · intro he
    refine ⟨?_, ?_, fun b => ?_, by simp [gracefulShutdownHook, he]⟩ <;>
      by_cases hp : s.pendingShutdown <;>
      simp [gracefullyHandleSubscriberShutdown, handleConnectionClose,
        handleChannelClose, appCloseRun, hp, he]
  · by_cases hp : s.pendingShutdown <;>
      simp [handleConnectionClose, handleChannelClose, hp, hes]

/-- Witness for C7's re-entry clause: a second connection close at a
concrete state that is already in error shutdown changes nothing. -/
theorem flags_monotone_write_once_witness :
    ({ pendingShutdown := false, errorShutdown := true, publishers := [],
       subscribers := [⟨2⟩] } : AppState).errorShutdown = true ∧
    (handleConnectionClose
      { pendingShutdown := false, errorShutdown := true, publishers := [],
        subscribers := [⟨2⟩] } (fun _ => [])).1 =
      { pendingShutdown := false, errorShutdown := true, publishers := [],
        subscribers := [⟨2⟩] } :=
  ⟨rfl, (flags_monotone_write_once.2.2
    { pendingShutdown := false, errorShutdown := true, publishers := [],
      subscribers := [⟨2⟩] } (fun _ => []) rfl).1⟩

/-- C8: `buildPublisher` binds the publisher to the confirm channel exactly
when `config.confirm` is true (otherwise to the regular channel), and gives
it a `BinaryMessageParser` exactly when `config.contentType` is BINARY
(otherwise a `JSONMessageParser` built from `config.schema`); queue name
and identities are taken from the config, so the dispatch is fixed at
construction. -/
theorem build_publisher_dispatch (config : PublisherConfig)
    (amqp : AmqpPane) (hne : amqp.channel ≠ amqp.confirmChannel) :
    ((buildPublisher config amqp).channel = amqp.confirmChannel ↔
      config.confirm = true) ∧
    ((buildPublisher config amqp).channel = amqp.channel ↔
      config.confirm = false) ∧
    ((buildPublisher config amqp).messageParser = .binaryMessageParser ↔
      config.contentType = .BINARY) ∧
    (config.contentType = .JSON →
      (buildPublisher config amqp).messageParser =
        .jsonMessageParser config.schema) ∧
    (buildPublisher config amqp).queueName = config.queueName ∧
    (buildPublisher config amqp).identities = config.identities := by
  cases hc : config.confirm <;> cases hct : config.contentType <;>
    simp [buildPublisher, hc, hct, hne, Ne.symm hne]

/-- Witness for C8 at a concrete confirm/JSON publisher config and the
real channel pane. -/
theorem build_publisher_dispatch_witness :
    ({ channel := .regular, confirmChannel := .confirm } :
        AmqpPane).channel ≠
      ({ channel := .regular, confirmChannel := .confirm } :
        AmqpPane).confirmChannel ∧
    ((buildPublisher
        { queueName := "jsonq", contentType := .JSON, schema := some "s",
          confirm := true, identities := ["alice"] }
        { channel := .regular, confirmChannel := .confirm }).channel =
      ChannelRef.confirm ↔ true = true) :=
  ⟨by decide, (build_publisher_dispatch
    { queueName := "jsonq", contentType := .JSON, schema := some "s",
      confirm := true, identities := ["alice"] }
    { channel := .regular, confirmChannel := .confirm } (by decide)).1⟩

/-- C9: the coordinator's very first action (on both paths) is the
assignment `pendingShutdown = true`, and any close event that is handled
at a state where `pendingShutdown` holds is logged only: the handlers
return the state unchanged, never set `errorShutdown` and never initiate a
further `app.close()`. -/
theorem pending_first_then_close_logged_only (s : AppState)
    (reads : Readings) :
    (∃ rest, (gracefullyHandleSubscriberShutdown s reads).2 =
      Ev.setPendingShutdown :: rest) ∧
    (gracefullyHandleSubscriberShutdown s reads).1.pendingShutdown
        = true ∧
    (∀ s2 : AppState, s2.pendingShutdown = true →
      handleConnectionClose s2 reads = (s2, [Ev.log .info]) ∧
      (∀ b, handleChannelClose s2 b reads = (s2, [Ev.log .info])) ∧
      (handleConnectionClose s2 reads).1.errorShutdown =
        s2.errorShutdown ∧
      Ev.appClose ∉ (handleConnectionClose s2 reads).2 ∧
      (∀ b, Ev.appClose ∉ (handleChannelClose s2 b reads).2)) := by
  refine ⟨?_, ?_, fun s2 hp => ?_⟩
  · by_cases he : s.errorShutdown <;>
      simp [gracefullyHandleSubscriberShutdown, he]
  · by_cases he : s.errorShutdown <;>
      simp [gracefullyHandleSubscriberShutdown, he]
  · have hc : handleConnectionClose s2 reads = (s2, [Ev.log .info]) := by
      simp [handleConnectionClose, hp]
    have hch : ∀ b, handleChannelClose s2 b reads =
        (s2, [Ev.log .info]) := by
      intro b
      simp [handleChannelClose, hp]
    refine ⟨hc, hch, by rw [hc], by rw [hc]; simp, fun b => ?_⟩
    rw [hch b]
    simp

/-- Witness for C9's logged-only clause at a concrete state with the flag
already raised. -/
theorem pending_first_then_close_logged_only_witness :
    ({ pendingShutdown := true, errorShutdown := false, publishers := [],
       subscribers := [] } : AppState).pendingShutdown = true ∧
    handleConnectionClose
        { pendingShutdown := true, errorShutdown := false,
          publishers := [], subscribers := [] } (fun _ => []) =
      ({ pendingShutdown := true, errorShutdown := false, publishers := [],
         subscribers := [] }, [Ev.log .info]) :=
  ⟨rfl, ((pending_first_then_close_logged_only
    { pendingShutdown := true, errorShutdown := false, publishers := [],
      subscribers := [] } (fun _ => [])).2.2
    { pendingShutdown := true, errorShutdown := false, publishers := [],
      subscribers := [] } rfl).1⟩

/-- C10: after `buildApp` removed all built-in content-type parsers and
installed the catch-all buffer parser, the body of every request — for any
`Content-Type` header value, including an absent one — reaches the route
handler as the raw received bytes, and the table of media-type-specific
parsers is empty, so the HTTP layer can never reject a content type. -/
theorem catch_all_buffer_passthrough (jsonParse textParse : BodyParser)
    (ct : Option String) (body : List Nat) :
    parseRequestBody (appParserTable jsonParse textParse) ct body =
      .ok (.buffer body) ∧
    (appParserTable jsonParse textParse).specific = [] :=
  ⟨rfl, rfl⟩

/-- Witness for C10: a request with an XML content type (for which no
parser was ever registered) still reaches the handler as its raw bytes. -/
theorem catch_all_buffer_passthrough_witness :
    parseRequestBody
        (appParserTable (fun _ => .error 400) (fun b => .ok (.text b)))
        (some "application/xml") [104, 105] =
      .ok (.buffer [104, 105]) :=
  (catch_all_buffer_passthrough (fun _ => .error 400) (fun b => .ok (.text b))
    (some "application/xml") [104, 105]).1

end BunnyRestProxy
